import Mathlib

/-!
Verification of the ITSM session/authorization core against its source.

The definitions below are a shallow embedding of the TypeScript source:

* the token storage module (in-memory access token, persisted refresh
  token, absolute expiry, `isTokenExpiringSoon`);
* the axios client with its request interceptor (proactive refresh),
  response interceptor (reactive 401 refresh with a retry-once flag) and
  the single-flight state `isRefreshing` / `refreshQueue` / `processQueue`;
* the role helpers (`hasRole`, `hasAnyRole`, `hasMinRole`);
* the ticket action guards of the TicketActions component;
* the mutation API call builders and the mutation-form validity guards.

Timestamps are milliseconds as integers (JavaScript `Date.now()`); JS
truthiness of a nullable string (null / undefined / "" are falsy) is
modelled by `jsTruthy`.
-/

/-! ## Token storage (auth/tokenStorage.ts) -/

/-- The token storage module state: module-level `accessToken` and
`tokenExpiresAt` plus the refresh token persisted in localStorage. -/
structure TokenStore where
  accessToken : Option String
  tokenExpiresAt : Option Int
  refreshTokenLS : Option String
deriving Repr, DecidableEq

/-- getAccessToken: return the in-memory access token. -/
def getAccessToken (s : TokenStore) : Option String :=
  s.accessToken

/-- setAccessToken(token, expiresIn): store the token and the absolute
expiry Date.now() + expiresIn * 1000. -/
def setAccessToken (s : TokenStore) (token : String) (expiresIn : Int) (now : Int) : TokenStore :=
  { s with accessToken := some token, tokenExpiresAt := some (now + expiresIn * 1000) }

/-- getRefreshToken: read the persisted refresh token. -/
def getRefreshToken (s : TokenStore) : Option String :=
  s.refreshTokenLS

/-- clearTokens: null the access token and expiry and remove the
persisted refresh token. -/
def clearTokens (_s : TokenStore) : TokenStore :=
  ⟨none, none, none⟩

/-- isTokenExpiringSoon(thresholdSeconds): true when there is no expiry,
or Date.now() >= tokenExpiresAt - thresholdSeconds * 1000. -/
def isTokenExpiringSoon (s : TokenStore) (thresholdSeconds : Int) (now : Int) : Bool :=
  match s.tokenExpiresAt with
  | none => true
  | some exp => decide (now ≥ exp - thresholdSeconds * 1000)

/-- Truthiness of a JS string that may be null or undefined: null,
undefined and the empty string are falsy. -/
def jsTruthy : Option String → Bool
  | none => false
  | some t => !(t == "")

/-! ## Roles (auth/roles.ts) -/

/-- Role id USER = 1. -/
def Roles.USER : Nat := 1

/-- Role id EMPLOYEE = 2. -/
def Roles.EMPLOYEE : Nat := 2

/-- Role id MANAGER = 3. -/
def Roles.MANAGER : Nat := 3

/-- Role id ADMIN = 4. -/
def Roles.ADMIN : Nat := 4

/-- RoleIdToName lookup table. -/
def RoleIdToName (id : Nat) : Option String :=
  if id = 1 then some "USER"
  else if id = 2 then some "EMPLOYEE"
  else if id = 3 then some "MANAGER"
  else if id = 4 then some "ADMIN"
  else none

/-- RoleNameToId lookup table. -/
def RoleNameToId (name : String) : Option Nat :=
  if name = "USER" then some 1
  else if name = "EMPLOYEE" then some 2
  else if name = "MANAGER" then some 3
  else if name = "ADMIN" then some 4
  else none

/-- hasRole(userRoles, roleId): look the id up in RoleIdToName; false for
an unknown id, otherwise membership of the name in the user's role list. -/
def hasRole (userRoles : List String) (roleId : Nat) : Bool :=
  match RoleIdToName roleId with
  | none => false
  | some roleName => userRoles.contains roleName

/-- hasAnyRole(userRoles, roleIds): some roleId satisfies hasRole. -/
def hasAnyRole (userRoles : List String) (roleIds : List Nat) : Bool :=
  roleIds.any (fun roleId => hasRole userRoles roleId)

/-- hasMinRole(userRoles, minRoleId): map the names through RoleNameToId,
drop unknown names, and ask whether some mapped id is >= minRoleId. -/
def hasMinRole (userRoles : List String) (minRoleId : Nat) : Bool :=
  (userRoles.filterMap RoleNameToId).any (fun id => decide (id ≥ minRoleId))

/-! ## Ticket action guards (TicketActions component) -/

/-- The slice of TicketDetail the action guards read: the closed flag and
the assignee id (null when unassigned). -/
structure TicketView where
  is_closed : Bool
  assigned_to : Option String
deriving Repr, DecidableEq

/-- JS strict equality of two possibly-undefined ids, as in
ticket.assigned_to?.id === user?.id (undefined === undefined is true). -/
def jsOptIdEq : Option String → Option String → Bool
  | none, none => true
  | some a, some b => a == b
  | _, _ => false

/-- isAssignedToMe = ticket.assigned_to?.id === user?.id. -/
def isAssignedToMe (t : TicketView) (userId : Option String) : Bool :=
  jsOptIdEq t.assigned_to userId

/-- canSelfAssign = isEmployee && !ticket.assigned_to && !ticket.is_closed. -/
def canSelfAssign (isEmployee : Bool) (t : TicketView) : Bool :=
  isEmployee && t.assigned_to.isNone && !t.is_closed

/-- canUpdateStatus = isEmployee && isAssignedToMe && !ticket.is_closed. -/
def canUpdateStatus (isEmployee : Bool) (t : TicketView) (userId : Option String) : Bool :=
  isEmployee && isAssignedToMe t userId && !t.is_closed

/-- canClose = isEmployee && isAssignedToMe && !ticket.is_closed. -/
def canClose (isEmployee : Bool) (t : TicketView) (userId : Option String) : Bool :=
  isEmployee && isAssignedToMe t userId && !t.is_closed

/-- canUpdatePriority = isEmployee && (isAssignedToMe || isManager) && !ticket.is_closed. -/
def canUpdatePriority (isEmployee isManager : Bool) (t : TicketView) (userId : Option String) : Bool :=
  isEmployee && (isAssignedToMe t userId || isManager) && !t.is_closed

/-- canUploadAttachment = isEmployee && !ticket.is_closed. -/
def canUploadAttachment (isEmployee : Bool) (t : TicketView) : Bool :=
  isEmployee && !t.is_closed

/-- canReassign = isManager && ticket.assigned_to && !ticket.is_closed. -/
def canReassign (isManager : Bool) (t : TicketView) : Bool :=
  isManager && t.assigned_to.isSome && !t.is_closed

/-! ## Status-update targets (types/mutations.ts and UpdateStatusButton) -/

/-- The UPDATABLE_STATUSES constant of types/mutations.ts. -/
def UPDATABLE_STATUSES : List String :=
  ["In Progress", "Waiting", "On Hold", "Assigned"]

/-- availableStatuses = UPDATABLE_STATUSES.filter(s => s !== ticket.status),
as computed by the UpdateStatusButton. -/
def availableStatuses (ticketStatus : String) : List String :=
  UPDATABLE_STATUSES.filter (fun s => s != ticketStatus)

/-! ## Mutation form validity (MutationForm and the action buttons) -/

/-- Whitespace characters removed by String.prototype.trim (the ASCII
ones an ITSM note can contain: space, tab, LF, VT, FF, CR). -/
def jsWhitespaceChar (c : Char) : Bool :=
  c == ' ' || c == '\t' || c == '\n' || c == '\x0b' || c == '\x0c' || c == '\r'

/-- note.trim(): drop whitespace from both ends. -/
def jsTrim (s : String) : String :=
  ⟨((s.toList.dropWhile jsWhitespaceChar).reverse.dropWhile jsWhitespaceChar).reverse⟩

/-- UpdateStatusButton: isValid = note.trim().length > 0. -/
def updateStatusIsValid (note : String) : Bool :=
  decide ((jsTrim note).length > 0)

/-- CloseTicketButton: isValid = closureCodeId.length > 0 && note.trim().length > 0. -/
def closeIsValid (closureCodeId note : String) : Bool :=
  decide (closureCodeId.length > 0) && decide ((jsTrim note).length > 0)

/-- UpdatePriorityButton: isValid = note.trim().length > 0. -/
def updatePriorityIsValid (note : String) : Bool :=
  decide ((jsTrim note).length > 0)

/-- ReassignButton: isValid = assignedTo.length > 0 && note.trim().length > 0. -/
def reassignIsValid (assignedTo note : String) : Bool :=
  decide (assignedTo.length > 0) && decide ((jsTrim note).length > 0)

/-- MutationForm handleSubmit: onSubmit fires only when
isValid && !isSubmitting (the submit button is also disabled otherwise). -/
def mutationFormSubmits (isValid isSubmitting : Bool) : Bool :=
  isValid && !isSubmitting

/-! ## Mutation API call builders (api/mutations.ts) -/

/-- Request body of POST /api/tickets/{id}/assign/: the assigned_to field
is present only when it was set. -/
structure AssignTicketRequest where
  assigned_to : Option String
deriving Repr, DecidableEq

/-- assignTicket(id, assignedTo?): start from an empty body, add
assigned_to only when the argument is truthy, and post to the assign URL. -/
def assignTicket (id : String) (assignedTo : Option String) : String × AssignTicketRequest :=
  let data : AssignTicketRequest := ⟨none⟩
  let data := if jsTruthy assignedTo then { data with assigned_to := assignedTo } else data
  ("/api/tickets/" ++ id ++ "/assign/", data)

/-! ## URL classification (api/client.ts interceptors)

The interceptors classify a request by substring tests on its URL,
config.url?.includes(pattern); substring containment is spelled out on
character lists. -/

/-- Whether the pattern is an initial segment of the character list. -/
def hasPrefixChars : List Char → List Char → Bool
  | [], _ => true
  | _ :: _, [] => false
  | a :: as, b :: bs => a == b && hasPrefixChars as bs

/-- Whether the pattern occurs as a contiguous run of the character list. -/
def containsChars (pat : List Char) : List Char → Bool
  | [] => hasPrefixChars pat []
  | b :: bs => hasPrefixChars pat (b :: bs) || containsChars pat bs

/-- url.includes(pat). -/
def urlIncludes (url pat : String) : Bool :=
  containsChars pat.toList url.toList

/-- The request interceptor's auth-endpoint test:
url includes /api/auth/login or /api/auth/refresh. -/
def isAuthEndpointReq (url : String) : Bool :=
  urlIncludes url "/api/auth/login" || urlIncludes url "/api/auth/refresh"

/-- The response interceptor's auth-endpoint test:
url includes /api/auth/login, /api/auth/refresh or /api/auth/logout. -/
def isAuthEndpointResp (url : String) : Bool :=
  urlIncludes url "/api/auth/login" || urlIncludes url "/api/auth/refresh" ||
    urlIncludes url "/api/auth/logout"

/-! ## Single-flight refresh trace model (api/client.ts)

The client keeps module state: a boolean isRefreshing and a waiter list
refreshQueue; processQueue resumes every waiter with the one outcome of
the in-flight refresh. JavaScript runs the guarded sections atomically
(single thread, no await between the isRefreshing test and its update on
the enqueue path), so a concurrent run is an interleaving of two atomic
events: a caller entering the single-flight section (`need`) and the
in-flight network refresh resolving (`finish`). -/

/-- Outcome of a refresh as a waiter observes it: the new token, or the
error the refresh rejected with. -/
inductive RefreshOutcome where
  | token (t : String)
  | failed (e : String)
deriving Repr, DecidableEq

/-- State of the single-flight coordinator: the isRefreshing flag, the
number of queued waiters, how many refresh network calls were issued, and
the outcomes observed so far by callers (owner and waiters alike). -/
structure FlightState where
  isRefreshing : Bool
  waiting : Nat
  networkCalls : Nat
  outcomes : List RefreshOutcome
deriving Repr, DecidableEq

/-- The coordinator before any caller needs a refresh. -/
def FlightState.init : FlightState :=
  ⟨false, 0, 0, []⟩

/-- Events of a concurrent run: a caller needs a refresh, or the
in-flight refresh call resolves. -/
inductive FlightEvent where
  | need
  | finish (o : RefreshOutcome)
deriving Repr, DecidableEq

/-- One atomic step. A caller that needs a refresh while none is in
flight sets isRefreshing and issues the one network call; while one is in
flight it enqueues onto refreshQueue. When the in-flight call resolves,
processQueue resumes every waiter with that same outcome, the owner
observes it in its own frame, the queue is emptied and the flag drops
(the finally block). -/
def flightStep : FlightState → FlightEvent → FlightState
  | s, .need =>
    if s.isRefreshing then { s with waiting := s.waiting + 1 }
    else { s with isRefreshing := true, networkCalls := s.networkCalls + 1 }
  | s, .finish o =>
    if s.isRefreshing then
      { isRefreshing := false
        waiting := 0
        networkCalls := s.networkCalls
        outcomes := s.outcomes ++ List.replicate (s.waiting + 1) o }
    else s

/-- Run a list of events from a state. -/
def flightRun (s : FlightState) : List FlightEvent → FlightState
  | [] => s
  | e :: es => flightRun (flightStep s e) es

/-! ## The interceptors as state transformers (api/client.ts)

One interceptor pass is modelled as a function of the pipeline state, the
clock and an oracle giving the outcome of the refresh network call, were
one issued. The refresh queue carries caller ids so that the fate of each
waiter is visible in the state. -/

/-- Outcome of the refresh network call POST /api/auth/refresh/ as the
server would answer it. -/
inductive NetResult where
  | ok (accessToken : String) (expiresIn : Int)
  | failed (msg : String)
deriving Repr, DecidableEq

/-- The module state the interceptors share: the token store, the
isRefreshing flag, the refreshQueue (caller ids), the waiters resumed so
far with a token or an error, and the count of refresh network calls. -/
structure PipelineState where
  store : TokenStore
  isRefreshing : Bool
  queue : List Nat
  resolvedWaiters : List (Nat × String)
  rejectedWaiters : List (Nat × String)
  networkCalls : Nat
deriving Repr, DecidableEq

/-- processQueue(error, token): reject every queued waiter when there is
an error, resolve every one when there is a token, then empty the queue. -/
def processQueue (ps : PipelineState) (err : Option String) (tok : Option String) :
    PipelineState :=
  match err, tok with
  | some e, _ =>
    { ps with
      queue := []
      rejectedWaiters := ps.rejectedWaiters ++ ps.queue.map (fun i => (i, e)) }
  | none, some t =>
    { ps with
      queue := []
      resolvedWaiters := ps.resolvedWaiters ++ ps.queue.map (fun i => (i, t)) }
  | none, none => { ps with queue := [] }

/-- refreshAccessToken: throw when no refresh token is stored (before the
try block, so nothing is cleared); otherwise issue the network call, on
success install the new access token, on failure clear all tokens and
rethrow. Returns the store, the number of network calls made (0 or 1) and
the result. -/
def refreshAccessToken (store : TokenStore) (now : Int) (net : NetResult) :
    TokenStore × Nat × Except String String :=
  match getRefreshToken store with
  | none => (store, 0, .error "No refresh token available")
  | some _ =>
    match net with
    | .ok t e => (setAccessToken store t e now, 1, .ok t)
    | .failed m => (clearTokens store, 1, .error m)

/-- What one pass of the request interceptor does to the outbound config:
it proceeds (with or without an Authorization header), throws the refresh
error, or suspends on the refresh queue. -/
inductive ReqOutcome where
  | proceed (attached : Option String)
  | failed (e : String)
  | suspended
deriving Repr, DecidableEq

/-- Line 190 of the client: if (token) set the Authorization header; an
empty token string is falsy and attaches nothing. -/
def attachHeader : Option String → Option String
  | none => none
  | some t => if t == "" then none else some t

/-- The request interceptor. Auth endpoints pass through untouched.
Otherwise, when a token is present and expiring within 60 seconds: if no
refresh is in flight, perform refreshAccessToken (the isRefreshing flag
is raised for the section and dropped in the finally block), resume the
queue with the outcome, and attach the new token or rethrow; if one is in
flight, enqueue and suspend. When not expiring, attach the stored token. -/
def requestInterceptor (url : String) (ps : PipelineState) (now : Int) (net : NetResult)
    (waiter : Nat) : PipelineState × ReqOutcome :=
  if isAuthEndpointReq url then (ps, .proceed none)
  else
    let token := getAccessToken ps.store
    if jsTruthy token && isTokenExpiringSoon ps.store 60 now then
      if ps.isRefreshing then
        ({ ps with queue := ps.queue ++ [waiter] }, .suspended)
      else
        match refreshAccessToken ps.store now net with
        | (store1, calls, .ok t) =>
          let ps1 := processQueue
            { ps with store := store1, networkCalls := ps.networkCalls + calls }
            none (some t)
          (ps1, .proceed (attachHeader (some t)))
        | (store1, calls, .error e) =>
          let ps1 := processQueue
            { ps with store := store1, networkCalls := ps.networkCalls + calls }
            (some e) none
          (ps1, .failed e)
    else
      (ps, .proceed (attachHeader token))

/-- What the response interceptor does with a failed response: reject it
to the caller, retry the original request with a fresh token, or enqueue
the retry behind the in-flight refresh. -/
inductive RespAction where
  | reject
  | retryWith (token : String)
  | enqueued
deriving Repr, DecidableEq

/-- The response interceptor on an error response. Non-401 statuses and
auth endpoints are rejected as-is. A request whose retry flag is already
set clears all tokens and is rejected. Otherwise the flag is set on the
original request and: if no refresh is in flight, refreshAccessToken runs
(flag raised then dropped in finally); on success the queue is resolved
and the original request retried with the new token; on failure the queue
is rejected with the refresh error, tokens are cleared and the error is
rejected. If a refresh is in flight, the retry is enqueued. -/
def responseInterceptor (status : Nat) (url : String) (retryFlag : Bool)
    (ps : PipelineState) (now : Int) (net : NetResult) (waiter : Nat) :
    PipelineState × RespAction :=
  if status ≠ 401 then (ps, .reject)
  else if isAuthEndpointResp url then (ps, .reject)
  else if retryFlag then ({ ps with store := clearTokens ps.store }, .reject)
  else
    if ps.isRefreshing then
      ({ ps with queue := ps.queue ++ [waiter] }, .enqueued)
    else
      match refreshAccessToken ps.store now net with
      | (store1, calls, .ok t) =>
        let ps1 := processQueue
          { ps with store := store1, networkCalls := ps.networkCalls + calls }
          none (some t)
        (ps1, .retryWith t)
      | (store1, calls, .error e) =>
        let ps1 := processQueue
          { ps with store := store1, networkCalls := ps.networkCalls + calls }
          (some e) none
        ({ ps1 with store := clearTokens ps1.store }, .reject)


/-! ## Theorems -/

/-- Helper for the single-flight property: from a state with a refresh in
flight, m further callers enqueue and the completion resumes owner and
waiters with the one outcome; no further network call is issued. -/
theorem flightRun_inflight (m : Nat) (o : RefreshOutcome) (w c : Nat)
    (os : List RefreshOutcome) :
    flightRun ⟨true, w, c, os⟩ (List.replicate m .need ++ [.finish o]) =
      ⟨false, 0, c, os ++ List.replicate (w + m + 1) o⟩ := by
  induction m generalizing w with
  | zero => simp [flightRun, flightStep]
  | succ k ih =>
    rw [List.replicate_succ, List.cons_append]
    show flightRun (flightStep ⟨true, w, c, os⟩ .need) _ = _
    have hstep : flightStep ⟨true, w, c, os⟩ .need = ⟨true, w + 1, c, os⟩ := by
      simp [flightStep]
    rw [hstep, ih (w + 1)]
    have harith : w + 1 + k + 1 = w + (k + 1) + 1 := by omega
    rw [harith]

/-- C1, single-flight refresh: in a run where n >= 1 concurrent callers
each require a refresh while at most one is in flight (the first caller
starts it, the rest arrive while it is outstanding) and the in-flight
refresh then resolves with outcome o, exactly one refresh network call is
issued and every one of the n callers observes that same outcome o. -/
theorem single_flight_refresh (n : Nat) (o : RefreshOutcome) (h : 1 ≤ n) :
    flightRun FlightState.init (List.replicate n .need ++ [.finish o]) =
      ⟨false, 0, 1, List.replicate n o⟩ := by
  obtain ⟨m, rfl⟩ : ∃ m, n = m + 1 := ⟨n - 1, by omega⟩
  rw [List.replicate_succ, List.cons_append]
  show flightRun (flightStep FlightState.init .need) _ = _
  have hstep : flightStep FlightState.init .need = ⟨true, 0, 1, []⟩ := by
    simp [flightStep, FlightState.init]
  rw [hstep, flightRun_inflight]
  simp

/-- Witness for C1 at n = 3 with a successful refresh. -/
theorem single_flight_refresh_witness :
    flightRun FlightState.init (List.replicate 3 .need ++ [.finish (.token "t")]) =
      ⟨false, 0, 1, List.replicate 3 (.token "t")⟩ :=
  single_flight_refresh 3 (.token "t") (by decide)

/-- C2, bounded retry: a 401 on a non-auth request whose retry flag is
already set clears every stored credential (access token, expiry and
persisted refresh token) and rejects with the error; moreover, for any
status and URL whatsoever, a request whose retry flag is set is never
retried again (the interceptor's action is always reject). Since the one
permitted retry is issued with the flag set, no call is retried twice. -/
theorem bounded_retry_terminal (status : Nat) (url : String) (ps : PipelineState)
    (now : Int) (net : NetResult) (w : Nat)
    (h401 : status = 401) (hauth : isAuthEndpointResp url = false) :
    responseInterceptor status url true ps now net w =
      ({ ps with store := clearTokens ps.store }, .reject) ∧
    clearTokens ps.store = ⟨none, none, none⟩ ∧
    (∀ st2 u2, (responseInterceptor st2 u2 true ps now net w).2 = .reject) := by
  subst h401
  refine ⟨?_, rfl, ?_⟩
  · simp [responseInterceptor, hauth]
  · intro st2 u2
    by_cases h : st2 = 401
    · subst h
      by_cases ha : isAuthEndpointResp u2
      · simp [responseInterceptor, ha]
      · simp [responseInterceptor, ha]
    · simp [responseInterceptor, h]

/-- Witness for C2 on a concrete already-retried ticket request. -/
theorem bounded_retry_terminal_witness :
    responseInterceptor 401 "/api/tickets/1/" true
        ⟨⟨some "tok", some 100000, some "rt"⟩, false, [], [], [], 0⟩ 99000 (.ok "new" 900) 0 =
      (⟨⟨none, none, none⟩, false, [], [], [], 0⟩, .reject) ∧
    clearTokens ⟨some "tok", some 100000, some "rt"⟩ = ⟨none, none, none⟩ ∧
    (∀ st2 u2, (responseInterceptor st2 u2 true
        ⟨⟨some "tok", some 100000, some "rt"⟩, false, [], [], [], 0⟩ 99000 (.ok "new" 900) 0).2 =
      .reject) :=
  bounded_retry_terminal 401 "/api/tickets/1/"
    ⟨⟨some "tok", some 100000, some "rt"⟩, false, [], [], [], 0⟩ 99000 (.ok "new" 900) 0
    rfl (by decide)

/-- C3, closed-ticket immutability: on a closed ticket every action guard
of the TicketActions component is false — self-assign, status update,
close, priority update, attachment upload and reassign are all
unavailable, for every combination of role flags and every assignee. -/
theorem closed_ticket_immutable (isEmployee isManager : Bool) (userId : Option String)
    (t : TicketView) (h : t.is_closed = true) :
    canSelfAssign isEmployee t = false ∧
    canUpdateStatus isEmployee t userId = false ∧
    canClose isEmployee t userId = false ∧
    canUpdatePriority isEmployee isManager t userId = false ∧
    canUploadAttachment isEmployee t = false ∧
    canReassign isManager t = false := by
  simp [canSelfAssign, canUpdateStatus, canClose, canUpdatePriority, canUploadAttachment,
    canReassign, h]

/-- Witness for C3 on a closed ticket assigned to the caller, with both
role flags set. -/
theorem closed_ticket_immutable_witness :
    canSelfAssign true ⟨true, some "u1"⟩ = false ∧
    canUpdateStatus true ⟨true, some "u1"⟩ (some "u1") = false ∧
    canClose true ⟨true, some "u1"⟩ (some "u1") = false ∧
    canUpdatePriority true true ⟨true, some "u1"⟩ (some "u1") = false ∧
    canUploadAttachment true ⟨true, some "u1"⟩ = false ∧
    canReassign true ⟨true, some "u1"⟩ = false :=
  closed_ticket_immutable true true (some "u1") ⟨true, some "u1"⟩ rfl

/-- C4, counterexample: from status Assigned, the status-update action
offers only In Progress, Waiting and On Hold — the claimed self-loop onto
Assigned is filtered out, so the reachable target set is not the full
{In Progress, Waiting, On Hold, Assigned}. -/
theorem status_update_no_self_loop_cex :
    availableStatuses "Assigned" = ["In Progress", "Waiting", "On Hold"] ∧
    "Assigned" ∉ availableStatuses "Assigned" := by
  refine ⟨rfl, ?_⟩
  decide

/-- C4 as amended: for every ticket status, the targets offered by the
status-update action are exactly UPDATABLE_STATUSES with the current
status removed (no self-loop is offered); Closed and New are never
status-update targets. -/
theorem status_update_targets (st t : String) :
    (t ∈ availableStatuses st ↔ (t ∈ UPDATABLE_STATUSES ∧ t ≠ st)) ∧
    "Closed" ∉ availableStatuses st ∧
    "New" ∉ availableStatuses st := by
  refine ⟨?_, ?_, ?_⟩
  · simp [availableStatuses, List.mem_filter]
  · simp [availableStatuses, UPDATABLE_STATUSES, List.mem_filter]
  · simp [availableStatuses, UPDATABLE_STATUSES, List.mem_filter]

/-- C5, counterexample: on the proactive path with no stored refresh
token, the refresh attempt fails but the credential store is NOT cleared —
the in-memory access token and expiry survive, contradicting the claim
that every refresh failure removes all credentials. -/
theorem refresh_failure_proactive_cex :
    (requestInterceptor "/api/tickets/1/"
        ⟨⟨some "tok", some 100000, none⟩, false, [], [], [], 0⟩ 99000 (.failed "x") 0).1.store =
      ⟨some "tok", some 100000, none⟩ ∧
    (requestInterceptor "/api/tickets/1/"
        ⟨⟨some "tok", some 100000, none⟩, false, [], [], [], 0⟩ 99000 (.failed "x") 0).2 =
      .failed "No refresh token available" := by
  refine ⟨rfl, rfl⟩

/-- C5 as amended: on the reactive 401 path every refresh failure
(network refresh rejected, or refresh token missing) clears the whole
credential store, rejects every queued waiter with that same error and
issues no second refresh call; on the proactive path a failing refresh
NETWORK call likewise clears the store and rejects all waiters with the
same error (only the missing-refresh-token abort on the proactive path,
the counterexample above, leaves the store unchanged). -/
theorem refresh_failure_semantics (url : String) (ps : PipelineState) (now exp : Int)
    (e rt tok : String) (w : Nat)
    (hauth : isAuthEndpointResp url = false) (hauthReq : isAuthEndpointReq url = false)
    (hflight : ps.isRefreshing = false)
    (hacc : ps.store.accessToken = some tok) (htok : tok ≠ "")
    (hexp : ps.store.tokenExpiresAt = some exp) (hwin : now ≥ exp - 60 * 1000) :
    (ps.store.refreshTokenLS = some rt →
      responseInterceptor 401 url false ps now (.failed e) w =
        (⟨⟨none, none, none⟩, false, [],
          ps.resolvedWaiters, ps.rejectedWaiters ++ ps.queue.map (fun i => (i, e)),
          ps.networkCalls + 1⟩, .reject)) ∧
    (ps.store.refreshTokenLS = none →
      responseInterceptor 401 url false ps now (.failed e) w =
        (⟨⟨none, none, none⟩, false, [],
          ps.resolvedWaiters,
          ps.rejectedWaiters ++ ps.queue.map (fun i => (i, "No refresh token available")),
          ps.networkCalls⟩, .reject)) ∧
    (ps.store.refreshTokenLS = some rt →
      requestInterceptor url ps now (.failed e) w =
        (⟨⟨none, none, none⟩, false, [],
          ps.resolvedWaiters, ps.rejectedWaiters ++ ps.queue.map (fun i => (i, e)),
          ps.networkCalls + 1⟩, .failed e)) := by
  refine ⟨?_, ?_, ?_⟩
  · intro hrt
    simp [responseInterceptor, hauth, hflight, refreshAccessToken, getRefreshToken, hrt,
      clearTokens, processQueue]
  · intro hrt
    simp [responseInterceptor, hauth, hflight, refreshAccessToken, getRefreshToken, hrt,
      clearTokens, processQueue]
  · intro hrt
    simp [requestInterceptor, hauthReq, hflight, refreshAccessToken, getRefreshToken, hrt,
      getAccessToken, hacc, jsTruthy, htok, isTokenExpiringSoon, hexp, hwin,
      clearTokens, processQueue]
    omega

/-- Witness for the amended C5 on a concrete state with one queued
waiter and a failing refresh call. -/
theorem refresh_failure_semantics_witness :
    (TokenStore.refreshTokenLS ⟨some "tok", some 100000, some "rt"⟩ = some "rt" →
      responseInterceptor 401 "/api/tickets/1/" false
          ⟨⟨some "tok", some 100000, some "rt"⟩, false, [7], [], [], 0⟩ 99000 (.failed "boom") 0 =
        (⟨⟨none, none, none⟩, false, [], [], [(7, "boom")], 1⟩, .reject)) ∧
    (TokenStore.refreshTokenLS ⟨some "tok", some 100000, some "rt"⟩ = none →
      responseInterceptor 401 "/api/tickets/1/" false
          ⟨⟨some "tok", some 100000, some "rt"⟩, false, [7], [], [], 0⟩ 99000 (.failed "boom") 0 =
        (⟨⟨none, none, none⟩, false, [], [],
          [(7, "No refresh token available")], 0⟩, .reject)) ∧
    (TokenStore.refreshTokenLS ⟨some "tok", some 100000, some "rt"⟩ = some "rt" →
      requestInterceptor "/api/tickets/1/"
          ⟨⟨some "tok", some 100000, some "rt"⟩, false, [7], [], [], 0⟩ 99000 (.failed "boom") 0 =
        (⟨⟨none, none, none⟩, false, [], [], [(7, "boom")], 1⟩, .failed "boom")) := by
  have h := refresh_failure_semantics "/api/tickets/1/"
    ⟨⟨some "tok", some 100000, some "rt"⟩, false, [7], [], [], 0⟩ 99000 100000
    "boom" "rt" "tok" 0 (by decide) (by decide) rfl rfl (by decide) rfl (by decide)
  exact h

/-- C6, proactive refresh: on a non-auth request with a stored token
whose expiry satisfies now >= expiry - 60 * 1000, a stored refresh token
and no refresh in flight, the request interceptor performs the refresh
first and attaches the REFRESHED token, the store is updated through
setAccessToken, queued waiters are resolved with the same new token, and
exactly one refresh network call occurs. -/
theorem proactive_refresh (url : String) (ps : PipelineState) (now exp e2 : Int)
    (tok rt newTok : String) (w : Nat)
    (hauth : isAuthEndpointReq url = false)
    (hacc : ps.store.accessToken = some tok) (htok : tok ≠ "")
    (hexp : ps.store.tokenExpiresAt = some exp)
    (hwin : now ≥ exp - 60 * 1000)
    (hrt : ps.store.refreshTokenLS = some rt)
    (hflight : ps.isRefreshing = false)
    (hnew : newTok ≠ "") :
    requestInterceptor url ps now (.ok newTok e2) w =
      (⟨setAccessToken ps.store newTok e2 now, false, [],
        ps.resolvedWaiters ++ ps.queue.map (fun i => (i, newTok)),
        ps.rejectedWaiters, ps.networkCalls + 1⟩,
       .proceed (some newTok)) := by
  simp [requestInterceptor, hauth, hflight, refreshAccessToken, getRefreshToken, hrt,
    getAccessToken, hacc, jsTruthy, htok, isTokenExpiringSoon, hexp,
    attachHeader, hnew, processQueue]
  omega

/-- Witness for C6: token expiring in 30 seconds (threshold 60), one
queued waiter; the refreshed token is attached and one call made. -/
theorem proactive_refresh_witness :
    requestInterceptor "/api/tickets/1/"
        ⟨⟨some "tok", some 100000, some "rt"⟩, false, [7], [], [], 0⟩ 70000 (.ok "new" 900) 0 =
      (⟨setAccessToken ⟨some "tok", some 100000, some "rt"⟩ "new" 900 70000, false, [],
        [(7, "new")], [], 1⟩, .proceed (some "new")) :=
  proactive_refresh "/api/tickets/1/"
    ⟨⟨some "tok", some 100000, some "rt"⟩, false, [7], [], [], 0⟩ 70000 100000 900
    "tok" "rt" "new" 0 (by decide) rfl (by decide) rfl (by decide) rfl rfl (by decide)

/-- C7, no recursive refresh: for a URL the request interceptor
classifies as an auth endpoint (login or refresh), the request passes
through with no token attached, no proactive refresh and no state change,
and a 401 response to it is rejected as-is — never retried via refresh,
with the pipeline state (network call count included) unchanged. -/
theorem auth_endpoints_never_refresh (url : String) (ps : PipelineState) (now : Int)
    (net : NetResult) (w : Nat) (flag : Bool)
    (h : isAuthEndpointReq url = true) :
    requestInterceptor url ps now net w = (ps, .proceed none) ∧
    responseInterceptor 401 url flag ps now net w = (ps, .reject) := by
  have hresp : isAuthEndpointResp url = true := by
    have h2 := h
    unfold isAuthEndpointReq at h2
    unfold isAuthEndpointResp
    rcases Bool.or_eq_true_iff.mp h2 with h3 | h3
    · simp [h3]
    · simp [h3]
  constructor
  · simp [requestInterceptor, h]
  · simp [responseInterceptor, hresp]

/-- Witness for C7 at the login URL. -/
theorem auth_endpoints_never_refresh_witness :
    requestInterceptor "/api/auth/login/"
        ⟨⟨some "tok", some 100000, some "rt"⟩, false, [], [], [], 0⟩ 99000 (.ok "new" 900) 0 =
      (⟨⟨some "tok", some 100000, some "rt"⟩, false, [], [], [], 0⟩, .proceed none) ∧
    responseInterceptor 401 "/api/auth/login/" false
        ⟨⟨some "tok", some 100000, some "rt"⟩, false, [], [], [], 0⟩ 99000 (.ok "new" 900) 0 =
      (⟨⟨some "tok", some 100000, some "rt"⟩, false, [], [], [], 0⟩, .reject) :=
  auth_endpoints_never_refresh "/api/auth/login/"
    ⟨⟨some "tok", some 100000, some "rt"⟩, false, [], [], [], 0⟩ 99000 (.ok "new" 900) 0 false
    (by decide)

/-- C8, note-mandatory: for a whitespace-only note, the validity guard of
every mutation form (status update, close, priority update, reassign) is
false, and the MutationForm submit handler fires no request when the
guard is false — so no mutation call is issued at all. -/
theorem note_mandatory (closureCodeId assignedTo note : String) (sub : Bool)
    (h : note.toList.all jsWhitespaceChar = true) :
    updateStatusIsValid note = false ∧
    closeIsValid closureCodeId note = false ∧
    updatePriorityIsValid note = false ∧
    reassignIsValid assignedTo note = false ∧
    mutationFormSubmits false sub = false := by
  have h1 : List.dropWhile jsWhitespaceChar note.data = [] := by
    rw [List.dropWhile_eq_nil_iff]
    intro x hx
    exact List.all_eq_true.mp h x hx
  have htrim : jsTrim note = "" := by
    simp [jsTrim, String.toList, h1]
  simp [updateStatusIsValid, closeIsValid, updatePriorityIsValid, reassignIsValid,
    mutationFormSubmits, htrim]

/-- Witness for C8 with a note of two spaces. -/
theorem note_mandatory_witness :
    updateStatusIsValid "  " = false ∧
    closeIsValid "cc1" "  " = false ∧
    updatePriorityIsValid "  " = false ∧
    reassignIsValid "u1" "  " = false ∧
    mutationFormSubmits false false = false :=
  note_mandatory "cc1" "u1" "  " false (by decide)

/-- Helper for C9: the role tables are inverse on recognized ids — a name
produced by RoleIdToName maps back to the same id by RoleNameToId. -/
theorem roleIdName_roundTrip (r : Nat) (name : String) (h : RoleIdToName r = some name) :
    RoleNameToId name = some r := by
  unfold RoleIdToName at h
  split_ifs at h with h1 h2 h3 h4
  · injection h with h5; subst h5; subst h1; rfl
  · injection h with h5; subst h5; subst h2; rfl
  · injection h with h5; subst h5; subst h3; rfl
  · injection h with h5; subst h5; subst h4; rfl

/-- C9, role order and at-least checks: the role ids order as
USER < EMPLOYEE < MANAGER < ADMIN; hasMinRole is antitone in the
threshold (passing a higher floor implies passing any lower one); for
every recognized role id, hasRole implies hasMinRole at that id; and a
role list made only of unrecognized names satisfies neither hasMinRole
nor hasRole. -/
theorem roles_total_order_min (rs : List String) (a b r : Nat)
    (hab : a ≤ b) (hr : (RoleIdToName r).isSome = true) :
    (Roles.USER < Roles.EMPLOYEE ∧ Roles.EMPLOYEE < Roles.MANAGER ∧
      Roles.MANAGER < Roles.ADMIN) ∧
    (hasMinRole rs b = true → hasMinRole rs a = true) ∧
    (hasRole rs r = true → hasMinRole rs r = true) ∧
    ((∀ n ∈ rs, RoleNameToId n = none) →
      hasMinRole rs a = false ∧ hasRole rs r = false) := by
  obtain ⟨name, hname⟩ := Option.isSome_iff_exists.mp hr
  refine ⟨by decide, ?_, ?_, ?_⟩
  · intro hb
    rw [hasMinRole, List.any_eq_true] at hb ⊢
    obtain ⟨x, hx, hxb⟩ := hb
    exact ⟨x, hx, by simp at hxb ⊢; omega⟩
  · intro hhr
    rw [hasRole] at hhr
    rw [hname] at hhr
    have hmem : name ∈ rs := by
      simpa using hhr
    rw [hasMinRole, List.any_eq_true]
    refine ⟨r, ?_, by simp⟩
    rw [List.mem_filterMap]
    exact ⟨name, hmem, roleIdName_roundTrip r name hname⟩
  · intro hnone
    constructor
    · rw [hasMinRole]
      have : rs.filterMap RoleNameToId = [] := by
        rw [List.filterMap_eq_nil_iff]
        intro x hx; exact hnone x hx
      rw [this]; rfl
    · rw [hasRole]
      rw [hname]
      rcases hcon : rs.contains name with _ | _
      · exact hcon
      · exfalso
        have hmem : name ∈ rs := by simpa using hcon
        have := hnone name hmem
        rw [roleIdName_roundTrip r name hname] at this
        exact Option.some_ne_none r this

/-- Witness for C9 at thresholds 1 <= 3 and the recognized role id 2,
over a role list holding only the unrecognized name FOO. -/
theorem roles_total_order_min_witness :
    (Roles.USER < Roles.EMPLOYEE ∧ Roles.EMPLOYEE < Roles.MANAGER ∧
      Roles.MANAGER < Roles.ADMIN) ∧
    (hasMinRole ["FOO"] 3 = true → hasMinRole ["FOO"] 1 = true) ∧
    (hasRole ["FOO"] 2 = true → hasMinRole ["FOO"] 2 = true) ∧
    ((∀ n ∈ ["FOO"], RoleNameToId n = none) →
      hasMinRole ["FOO"] 1 = false ∧ hasRole ["FOO"] 2 = false) :=
  roles_total_order_min ["FOO"] 1 3 2 (by decide) (by decide)

/-- C10, falsy assign target: assignTicket with the target omitted or the
empty string produces the identical request — the assign URL with an
empty body (no assigned_to field) — and the assigned_to field is included
exactly for a non-empty target string. -/
theorem assign_falsy_collapses (id s : String) (hs : s ≠ "") :
    assignTicket id none = assignTicket id (some "") ∧
    (assignTicket id none).2 = ⟨none⟩ ∧
    (assignTicket id (some s)).2 = ⟨some s⟩ := by
  refine ⟨rfl, rfl, ?_⟩
  simp [assignTicket, jsTruthy, hs]

/-- Witness for C10 at ticket 42 and target user u1. -/
theorem assign_falsy_collapses_witness :
    assignTicket "42" none = assignTicket "42" (some "") ∧
    (assignTicket "42" none).2 = ⟨none⟩ ∧
    (assignTicket "42" (some "u1")).2 = ⟨some "u1"⟩ :=
  assign_falsy_collapses "42" "u1" (by decide)
